import Mathlib

/-!
Verification of scripts/read_socket.py, the Log Relay Client.

The script is a single async function listen that loops forever:
it connects to ws://localhost:3001, reads text frames, decodes each
frame as JSON, prints one line per decoded frame, and on failure either
retries after a fixed 5 second sleep (connect failures caught by the
outer handler) or breaks out of the inner read loop (per message
failures and connection closes caught by the inner handlers).

The embedding below is a shallow one.  The environment is a script: a
list of connect outcomes, where a successful connect carries the list
of receive outcomes observed on that connection.  Running the client on
a script yields a trace of observable actions (socket operations,
printed lines, sleeps) and a final status (still running, or crashed by
an uncaught exception).  Machine level details of the websockets
library are represented by the exception classes its documented API can
raise and by the class hierarchy the except clauses of the source
dispatch on.
-/

namespace ReadSocket

/-- Exception classes relevant to the client, mirroring the Python
classes the handlers in scripts/read_socket.py dispatch on.
In the websockets library, ConnectionClosedOK and ConnectionClosedError
are the two subclasses of ConnectionClosed, which derives from
WebSocketException, not from OSError; InvalidHandshake (raised by
websockets.connect when the opening handshake fails) likewise derives
from WebSocketException only.  OSError covers the builtin OSError and
its subclasses such as ConnectionRefusedError.  All classes here derive
from the builtin Exception. -/
inductive Exc where
  | osError (msg : String)
  | connectionClosedOK
  | connectionClosedError
  | invalidHandshake (msg : String)
  | jsonDecodeError (msg : String)
  | keyError (key : String)
  | typeError (msg : String)
  | otherError (msg : String)
  deriving DecidableEq, Repr

/-- Which exceptions the inner clause except websockets.exceptions.ConnectionClosed
(line 16 of the source) catches: both subclasses of ConnectionClosed. -/
def isConnectionClosed : Exc → Bool
  | Exc.connectionClosedOK => true
  | Exc.connectionClosedError => true
  | _ => false

/-- Which exceptions the outer clause
except (OSError, websockets.exceptions.ConnectionClosedError)
(line 22 of the source) catches.  InvalidHandshake is neither an
OSError nor a ConnectionClosedError, so it is not caught. -/
def caughtByOuter : Exc → Bool
  | Exc.osError _ => true
  | Exc.connectionClosedError => true
  | _ => false

/-- The text Python interpolates for an exception e in the f-string
diagnostic.  For KeyError, str(e) is the repr of the missing key, hence
the quotes.  For the other classes the message is carried abstractly;
the claims never inspect these texts. -/
def excMsg : Exc → String
  | Exc.osError m => m
  | Exc.connectionClosedOK => "received 1000 (OK); then sent 1000 (OK)"
  | Exc.connectionClosedError => "no close frame received or sent"
  | Exc.invalidHandshake m => m
  | Exc.jsonDecodeError m => m
  | Exc.keyError k => "\x27" ++ k ++ "\x27"
  | Exc.typeError m => m
  | Exc.otherError m => m

/-- JSON values as produced by json.loads: objects keep their key and
value pairs in textual order (dict insertion order), numbers are
modelled as integers, which covers every numeric value the claims
mention. -/
inductive Json where
  | null
  | bool (b : Bool)
  | num (n : Int)
  | str (s : String)
  | arr (xs : List Json)
  | obj (fs : List (String × Json))

mutual

/-- Python repr of a decoded JSON value, as used when a container is
interpolated into an f-string.  Escaping of special characters inside
strings is elided; no claim depends on it. -/
def pyRepr : Json → String
  | Json.null => "None"
  | Json.bool b => if b then "True" else "False"
  | Json.num n => toString n
  | Json.str s => "\x27" ++ s ++ "\x27"
  | Json.arr xs => "[" ++ pyReprList xs ++ "]"
  | Json.obj fs => "\x7b" ++ pyReprFields fs ++ "\x7d"

/-- Comma separated reprs of the elements of a Python list. -/
def pyReprList : List Json → String
  | [] => ""
  | [x] => pyRepr x
  | x :: y :: rest => pyRepr x ++ ", " ++ pyReprList (y :: rest)

/-- Comma separated key and value reprs of the entries of a Python dict. -/
def pyReprFields : List (String × Json) → String
  | [] => ""
  | [(k, v)] => "\x27" ++ k ++ "\x27: " ++ pyRepr v
  | (k, v) :: q :: rest => "\x27" ++ k ++ "\x27: " ++ pyRepr v ++ ", " ++ pyReprFields (q :: rest)

end

/-- Python str of a decoded JSON value, as interpolated by the f-string
on line 15 of the source: a string interpolates as itself, every other
value as its repr. -/
def pyStr : Json → String
  | Json.str s => s
  | j => pyRepr j

/-- Lookup in the dict built by json.loads from the listed pairs: a
later entry with the same key overrides an earlier one, exactly as dict
insertion does. -/
def dictGet (fs : List (String × Json)) (k : String) : Option Json :=
  fs.foldl (fun acc p => if p.1 = k then some p.2 else acc) none

/-- The content of one received text frame, as seen by json.loads:
either text that is not valid JSON (json.loads raises JSONDecodeError,
the payload standing for its message) or a parsed JSON value. -/
inductive FrameContent where
  | invalid (msg : String)
  | valid (j : Json)

/-- Lines 14 and 15 of the source applied to one frame:
log_data = json.loads(message) followed by the f-string
subscripting log_data with the keys type and message.  Returns the line
to print on success, or the exception Python raises: JSONDecodeError
for invalid JSON, TypeError when the decoded value is not an object
(subscripting a non dict with a string key), KeyError for a missing
key.  No type validation is performed on the values found. -/
def decodeFrame : FrameContent → Except Exc String
  | FrameContent.invalid m => Except.error (Exc.jsonDecodeError m)
  | FrameContent.valid j =>
    match j with
    | Json.obj fs =>
      match dictGet fs "type" with
      | none => Except.error (Exc.keyError "type")
      | some tv =>
        match dictGet fs "message" with
        | none => Except.error (Exc.keyError "message")
        | some mv => Except.ok ("[" ++ pyStr tv ++ "] " ++ pyStr mv)
    | _ => Except.error (Exc.typeError "object is not subscriptable")

/-- One outcome of await websocket.recv(): either a text frame arrives,
or the call raises an exception (ConnectionClosedOK on a clean close by
the peer, ConnectionClosedError on an abrupt close, or any other
exception). -/
inductive RecvOutcome where
  | frame (f : FrameContent)
  | raise (e : Exc)

/-- The outcome of one websockets.connect(uri) attempt: the connection
is established and then yields the listed receive outcomes, or connect
raises an exception (OSError when the peer is unreachable,
InvalidHandshake when the opening handshake fails, and so on). -/
inductive ConnectOutcome where
  | fail (e : Exc)
  | ok (recvs : List RecvOutcome)

/-- Observable actions of the client.  connectAttempt, recvWait, close
and send are the socket operations (send is part of the vocabulary but,
as proved below, never performed); print is one line written to
standard output; sleep is await asyncio.sleep with its argument in
seconds. -/
inductive Action where
  | connectAttempt
  | recvWait
  | close
  | send (payload : String)
  | print (line : String)
  | sleep (secs : Nat)
  deriving DecidableEq, Repr

/-- Socket operations among the actions. -/
def isSocketOp : Action → Bool
  | Action.connectAttempt => true
  | Action.recvWait => true
  | Action.close => true
  | Action.send _ => true
  | _ => false

/-- Final status of a run over a finite script: still inside the loop
(running), or terminated by an exception that no handler caught
(crashed).  On an uncaught exception the Python runtime, not the
program, prints a traceback; the program itself prints nothing. -/
inductive Status where
  | running
  | crashed (e : Exc)
  deriving DecidableEq, Repr

/-- The result of running the client on a finite environment script. -/
structure RunResult where
  trace : List Action
  status : Status
  deriving DecidableEq, Repr

/-- One iteration of the inner while (lines 11 to 21 of the source) on
one recv outcome: the emitted actions, and whether the iteration breaks
out of the inner loop.  A decoded frame is printed and the loop
continues; any exception from recv or decode is caught, ConnectionClosed
by line 16 (printing the close diagnostic) and everything else by line
19 (printing the error diagnostic), and both handlers break. -/
def innerStep : RecvOutcome → List Action × Bool
  | RecvOutcome.frame f =>
    match decodeFrame f with
    | Except.ok line => ([Action.recvWait, Action.print line], false)
    | Except.error e =>
      ([Action.recvWait, Action.print ("An error occurred: " ++ excMsg e)], true)
  | RecvOutcome.raise e =>
    if isConnectionClosed e then
      ([Action.recvWait, Action.print "Connection closed."], true)
    else
      ([Action.recvWait, Action.print ("An error occurred: " ++ excMsg e)], true)

/-- The inner while True loop over the receive outcomes of one
connection.  If the listed outcomes are exhausted without a break the
client is suspended in recv awaiting the next frame (the trailing
recvWait), and the flag is false; otherwise the flag is true and the
actions end at the break. -/
def runInner : List RecvOutcome → List Action × Bool
  | [] => ([Action.recvWait], false)
  | o :: rest =>
    if (innerStep o).2 then innerStep o
    else ((innerStep o).1 ++ (runInner rest).1, (runInner rest).2)

/-- The function listen of scripts/read_socket.py, run over a finite
environment script.  The outer while True (lines 8 to 24): a connect
attempt that raises an OSError or ConnectionClosedError is caught by
line 22, which prints the retry diagnostic and sleeps 5 seconds before
the next iteration; a connect attempt that raises anything else is
uncaught and crashes the process; a successful connect runs the inner
loop, and when the inner loop breaks the async with closes the socket
and the outer loop immediately attempts the next connect, with no sleep
on that path.  An empty script leaves the client blocked inside
websockets.connect. -/
def listen : List ConnectOutcome → RunResult
  | [] => RunResult.mk [Action.connectAttempt] Status.running
  | ConnectOutcome.fail e :: rest =>
    if caughtByOuter e then
      RunResult.mk
        (Action.connectAttempt ::
          Action.print "Connection failed. Retrying in 5 seconds..." ::
          Action.sleep 5 :: (listen rest).trace)
        (listen rest).status
    else
      RunResult.mk [Action.connectAttempt] (Status.crashed e)
  | ConnectOutcome.ok recvs :: rest =>
    if (runInner recvs).2 then
      RunResult.mk
        (Action.connectAttempt ::
          ((runInner recvs).1 ++ Action.close :: (listen rest).trace))
        (listen rest).status
    else
      RunResult.mk (Action.connectAttempt :: (runInner recvs).1) Status.running

/-- Helper: the error diagnostic never coincides with a rendered log
line, whatever the message and whatever the rendered fields: the first
characters differ. -/
theorem diag_ne_render (s T M : String) :
    "An error occurred: " ++ s ≠ "[" ++ T ++ "] " ++ M := by
  intro h
  have h2 : ("An error occurred: " ++ s).data.head? =
      ("[" ++ T ++ "] " ++ M).data.head? := by rw [h]
  have hl : ("An error occurred: " ++ s).data.head? = some (Char.ofNat 65) := rfl
  have hr : ("[" ++ T ++ "] " ++ M).data.head? = some (Char.ofNat 91) := rfl
  rw [hl, hr] at h2
  exact absurd h2 (by decide)

/-- Helper: whatever arrives on one established connection, the run
ends still running: every exception of the inner loop is caught. -/
theorem status_ok_single (recvs : List RecvOutcome) :
    (listen [ConnectOutcome.ok recvs]).status = Status.running := by
  by_cases h : (runInner recvs).2 = true <;> simp [listen, h]

/-- Helper: the only socket operation an inner iteration performs is
the recv it waits on. -/
theorem innerStep_socket (o : RecvOutcome) (a : Action)
    (ha : a ∈ (innerStep o).1) (hs : isSocketOp a = true) :
    a = Action.recvWait := by
  cases o with
  | frame f =>
    cases h : decodeFrame f with
    | ok line =>
      simp [innerStep, h] at ha
      rcases ha with rfl | rfl
      · rfl
      · simp [isSocketOp] at hs
    | error e =>
      simp [innerStep, h] at ha
      rcases ha with rfl | rfl
      · rfl
      · simp [isSocketOp] at hs
  | raise e =>
    by_cases h : isConnectionClosed e = true <;>
      simp [innerStep, h] at ha <;>
      rcases ha with rfl | rfl
    · rfl
    · simp [isSocketOp] at hs
    · rfl
    · simp [isSocketOp] at hs

/-- Helper: the only socket operation the inner loop performs is recv. -/
theorem runInner_socket (recvs : List RecvOutcome) (a : Action)
    (ha : a ∈ (runInner recvs).1) (hs : isSocketOp a = true) :
    a = Action.recvWait := by
  induction recvs with
  | nil => simpa [runInner] using ha
  | cons o rest ih =>
    by_cases h : (innerStep o).2 = true
    · rw [runInner, if_pos h] at ha
      exact innerStep_socket o a ha hs
    · rw [runInner, if_neg h] at ha
      rcases List.mem_append.mp ha with ha | ha
      · exact innerStep_socket o a ha hs
      · exact ih ha

/-- C1: for every well-formed frame, a text frame whose content is a
JSON object with keys type (value T) and message (value M), the client
prints exactly one line, of the form bracket T bracket space M, and
stays in the Connected state: the inner iteration does not break, and
the inner loop goes on to read the next frame. -/
theorem c1_wellformed_frame_prints_once_and_stays_connected
    (fs : List (String × Json)) (T M : String)
    (h1 : dictGet fs "type" = some (Json.str T))
    (h2 : dictGet fs "message" = some (Json.str M)) :
    innerStep (RecvOutcome.frame (FrameContent.valid (Json.obj fs))) =
      ([Action.recvWait, Action.print ("[" ++ T ++ "] " ++ M)], false) ∧
    ∀ rest, runInner (RecvOutcome.frame (FrameContent.valid (Json.obj fs)) :: rest) =
      (Action.recvWait :: Action.print ("[" ++ T ++ "] " ++ M) :: (runInner rest).1,
        (runInner rest).2) := by
  have hd : decodeFrame (FrameContent.valid (Json.obj fs)) =
      Except.ok ("[" ++ T ++ "] " ++ M) := by
    simp [decodeFrame, h1, h2, pyStr]
  constructor
  · simp [innerStep, hd]
  · intro rest
    simp [runInner, innerStep, hd]

/-- Witness for C1: the frame with type INFO and message started is
printed as the line bracket INFO bracket space started and the loop
continues, matching the spec scenario. -/
theorem c1_witness :
    (dictGet [("type", Json.str "INFO"), ("message", Json.str "started")] "type" =
        some (Json.str "INFO") ∧
      dictGet [("type", Json.str "INFO"), ("message", Json.str "started")] "message" =
        some (Json.str "started")) ∧
    innerStep (RecvOutcome.frame (FrameContent.valid
        (Json.obj [("type", Json.str "INFO"), ("message", Json.str "started")]))) =
      ([Action.recvWait, Action.print "[INFO] started"], false) :=
  ⟨⟨rfl, rfl⟩,
    (c1_wellformed_frame_prints_once_and_stays_connected
      [("type", Json.str "INFO"), ("message", Json.str "started")]
      "INFO" "started" rfl rfl).1⟩

/-- C2: for every malformed frame (content that is not valid JSON, or
valid JSON lacking the type or message field, which decodeFrame maps to
an error), the process does not crash: the inner iteration prints
exactly one diagnostic line, that line is never of the rendered
bracket T bracket space M form, and the iteration breaks, tearing the
current connection down; moreover a run consisting of one established
connection that delivers any frame first still ends running. -/
theorem c2_malformed_frame_diag_and_teardown (f : FrameContent) (e : Exc)
    (h : decodeFrame f = Except.error e) :
    innerStep (RecvOutcome.frame f) =
      ([Action.recvWait, Action.print ("An error occurred: " ++ excMsg e)], true) ∧
    (∀ T M : String,
      "An error occurred: " ++ excMsg e ≠ "[" ++ T ++ "] " ++ M) ∧
    ∀ recvs, (listen [ConnectOutcome.ok (RecvOutcome.frame f :: recvs)]).status =
      Status.running := by
  refine ⟨by simp [innerStep, h], fun T M => diag_ne_render (excMsg e) T M, ?_⟩
  intro recvs
  exact status_ok_single (RecvOutcome.frame f :: recvs)

/-- Witness for C2: a frame whose content is not valid JSON yields the
error diagnostic, breaks the inner loop, and the process keeps
running. -/
theorem c2_witness :
    decodeFrame (FrameContent.invalid "Expecting value: line 1 column 1 (char 0)") =
      Except.error (Exc.jsonDecodeError "Expecting value: line 1 column 1 (char 0)") ∧
    innerStep (RecvOutcome.frame
        (FrameContent.invalid "Expecting value: line 1 column 1 (char 0)")) =
      ([Action.recvWait,
        Action.print "An error occurred: Expecting value: line 1 column 1 (char 0)"],
        true) ∧
    (listen [ConnectOutcome.ok
        [RecvOutcome.frame (FrameContent.invalid "Expecting value: line 1 column 1 (char 0)")]]).status =
      Status.running :=
  ⟨rfl,
    (c2_malformed_frame_diag_and_teardown
      (FrameContent.invalid "Expecting value: line 1 column 1 (char 0)")
      (Exc.jsonDecodeError "Expecting value: line 1 column 1 (char 0)") rfl).1,
    (c2_malformed_frame_diag_and_teardown
      (FrameContent.invalid "Expecting value: line 1 column 1 (char 0)")
      (Exc.jsonDecodeError "Expecting value: line 1 column 1 (char 0)") rfl).2.2 []⟩

/-- C10: decode performs no type validation on the required fields.
For every JSON object carrying both the type and message keys the
event is rendered with the Python str of the values, whatever their
types; in particular the frame with numeric type 1 and numeric
message 2 renders as the line bracket 1 bracket space 2. -/
theorem c10_no_type_validation :
    (∀ tv mv : Json,
      decodeFrame (FrameContent.valid (Json.obj [("type", tv), ("message", mv)])) =
        Except.ok ("[" ++ pyStr tv ++ "] " ++ pyStr mv)) ∧
    decodeFrame (FrameContent.valid
        (Json.obj [("type", Json.num 1), ("message", Json.num 2)])) =
      Except.ok "[1] 2" := by
  constructor
  · intro tv mv
    rfl
  · rfl

/-- C3 counterexample: an abrupt (non clean) close of an established
connection during receive is NOT followed by the 5 second delay.  The
inner clause for ConnectionClosed also catches ConnectionClosedError,
prints the close diagnostic, and the next connect attempt follows the
socket close immediately: the trace holds no sleep at all. -/
theorem c3_counterexample :
    listen [ConnectOutcome.ok [RecvOutcome.raise Exc.connectionClosedError],
        ConnectOutcome.ok []] =
      RunResult.mk
        [Action.connectAttempt, Action.recvWait, Action.print "Connection closed.",
          Action.close, Action.connectAttempt, Action.recvWait]
        Status.running ∧
    Action.sleep 5 ∉
      (listen [ConnectOutcome.ok [RecvOutcome.raise Exc.connectionClosedError],
        ConnectOutcome.ok []]).trace := by
  exact ⟨rfl, by decide⟩

/-- C3 amended: a connect attempt that raises an exception caught by
the outer handler (OSError or ConnectionClosedError) is followed by the
retry diagnostic and a fixed 5 second sleep before the next attempt,
whatever comes next in the script (no retry cap); but an abrupt close
of an established connection during receive is caught by the inner
ConnectionClosed handler, prints the close diagnostic, and the next
connect attempt follows immediately with no delay. -/
theorem c3_amended_delay_only_on_connect_failure :
    (∀ (e : Exc) (rest : List ConnectOutcome), caughtByOuter e = true →
      listen (ConnectOutcome.fail e :: rest) =
        RunResult.mk
          (Action.connectAttempt ::
            Action.print "Connection failed. Retrying in 5 seconds..." ::
            Action.sleep 5 :: (listen rest).trace)
          (listen rest).status) ∧
    (∀ rest : List ConnectOutcome,
      listen (ConnectOutcome.ok [RecvOutcome.raise Exc.connectionClosedError] :: rest) =
        RunResult.mk
          (Action.connectAttempt :: Action.recvWait ::
            Action.print "Connection closed." :: Action.close :: (listen rest).trace)
          (listen rest).status) := by
  constructor
  · intro e rest h
    simp [listen, h]
  · intro rest
    simp [listen, runInner, innerStep, isConnectionClosed]

/-- Witness for C3 amended: a refused connection (an OSError) is
followed by the retry diagnostic and the 5 second sleep. -/
theorem c3_witness :
    caughtByOuter (Exc.osError "Connect call failed") = true ∧
    listen [ConnectOutcome.fail (Exc.osError "Connect call failed")] =
      RunResult.mk
        [Action.connectAttempt,
          Action.print "Connection failed. Retrying in 5 seconds...",
          Action.sleep 5, Action.connectAttempt]
        Status.running :=
  ⟨rfl, c3_amended_delay_only_on_connect_failure.1
    (Exc.osError "Connect call failed") [] rfl⟩

/-- C4 counterexample: the client can terminate on its own.  A connect
attempt that fails with InvalidHandshake (the websockets exception for
a failed opening handshake, which is neither an OSError nor a
ConnectionClosedError) is caught by no handler: the run crashes, and
the program prints no diagnostic line for it. -/
theorem c4_counterexample :
    listen [ConnectOutcome.fail
        (Exc.invalidHandshake "server rejected WebSocket connection: HTTP 404")] =
      RunResult.mk [Action.connectAttempt]
        (Status.crashed
          (Exc.invalidHandshake "server rejected WebSocket connection: HTTP 404")) ∧
    (listen [ConnectOutcome.fail
        (Exc.invalidHandshake "server rejected WebSocket connection: HTTP 404")]).status ≠
      Status.running := by
  exact ⟨rfl, by decide⟩

/-- C4 amended: the client never terminates because of anything that
happens on an established connection, and every run either is still
running or crashed on a connect attempt whose exception the outer
handler does not catch (for instance a handshake failure); only such an
uncaught connect time exception ends the process. -/
theorem c4_amended_crash_only_from_uncaught_connect :
    (∀ script : List ConnectOutcome,
      (listen script).status = Status.running ∨
      ∃ e, (listen script).status = Status.crashed e ∧
        caughtByOuter e = false ∧ ConnectOutcome.fail e ∈ script) ∧
    (∀ recvs : List RecvOutcome,
      (listen [ConnectOutcome.ok recvs]).status = Status.running) := by
  constructor
  · intro script
    induction script with
    | nil => left; rfl
    | cons c rest ih =>
      cases c with
      | fail e =>
        by_cases h : caughtByOuter e = true
        · rcases ih with h2 | ⟨e2, h2, h3, h4⟩
          · left; simp [listen, h, h2]
          · right
            exact ⟨e2, by simp [listen, h, h2], h3, List.mem_cons_of_mem _ h4⟩
        · right
          exact ⟨e, by simp [listen, h], by simpa using h, List.mem_cons_self _ _⟩
      | ok recvs =>
        by_cases h : (runInner recvs).2 = true
        · rcases ih with h2 | ⟨e2, h2, h3, h4⟩
          · left; simp [listen, h, h2]
          · right
            exact ⟨e2, by simp [listen, h, h2], h3, List.mem_cons_of_mem _ h4⟩
        · left; simp [listen, h]
  · exact status_ok_single

/-- C5 counterexample: a failure of the WebSocket opening handshake is
not treated as a retriable condition.  InvalidHandshake is outside the
caught classes, so the run crashes instead of sleeping and retrying:
no sleep appears in the trace. -/
theorem c5_counterexample :
    listen [ConnectOutcome.fail (Exc.invalidHandshake "invalid status code")] =
      RunResult.mk [Action.connectAttempt]
        (Status.crashed (Exc.invalidHandshake "invalid status code")) ∧
    Action.sleep 5 ∉
      (listen [ConnectOutcome.fail (Exc.invalidHandshake "invalid status code")]).trace := by
  exact ⟨rfl, by decide⟩

/-- C5 amended: a failure of connect with an OSError (the peer at the
fixed address being unreachable) or with a ConnectionClosedError
triggers the outer retry loop with the fixed delay; but a failure of
the WebSocket handshake itself, raised as InvalidHandshake, is not of
a caught class: it propagates and the process crashes. -/
theorem c5_amended_oserror_retried_handshake_uncaught :
    (∀ (m : String) (rest : List ConnectOutcome),
      listen (ConnectOutcome.fail (Exc.osError m) :: rest) =
        RunResult.mk
          (Action.connectAttempt ::
            Action.print "Connection failed. Retrying in 5 seconds..." ::
            Action.sleep 5 :: (listen rest).trace)
          (listen rest).status) ∧
    (∀ rest : List ConnectOutcome,
      listen (ConnectOutcome.fail Exc.connectionClosedError :: rest) =
        RunResult.mk
          (Action.connectAttempt ::
            Action.print "Connection failed. Retrying in 5 seconds..." ::
            Action.sleep 5 :: (listen rest).trace)
          (listen rest).status) ∧
    (∀ (m : String) (rest : List ConnectOutcome),
      listen (ConnectOutcome.fail (Exc.invalidHandshake m) :: rest) =
        RunResult.mk [Action.connectAttempt]
          (Status.crashed (Exc.invalidHandshake m))) := by
  refine ⟨?_, ?_, ?_⟩
  · intro m rest
    simp [listen, caughtByOuter]
  · intro rest
    simp [listen, caughtByOuter]
  · intro m rest
    simp [listen, caughtByOuter]

/-- C6: when connect attempts keep failing because the connection
cannot be established (OSError), the client waits 5 seconds after each
failure and retries indefinitely: after any number n of consecutive
failures the trace is n repetitions of attempt, retry diagnostic and
5 second sleep, followed by the next attempt, and the client is still
running. -/
theorem c6_unbounded_retry_with_fixed_delay (n : Nat) (m : String) :
    listen (List.replicate n (ConnectOutcome.fail (Exc.osError m))) =
      RunResult.mk
        (List.flatten (List.replicate n
          [Action.connectAttempt,
            Action.print "Connection failed. Retrying in 5 seconds...",
            Action.sleep 5]) ++ [Action.connectAttempt])
        Status.running := by
  induction n with
  | zero => simp [listen]
  | succ k ih => simp [List.replicate_succ, listen, caughtByOuter, ih]

/-- C7: when the peer closes the connection cleanly, recv raises
ConnectionClosedOK, the client prints the line Connection closed. and
the next connect attempt follows the socket close immediately: the
5 second sleep appears nowhere on this path, whatever the rest of the
script holds. -/
theorem c7_clean_close_reconnects_immediately (rest : List ConnectOutcome) :
    listen (ConnectOutcome.ok [RecvOutcome.raise Exc.connectionClosedOK] :: rest) =
      RunResult.mk
        (Action.connectAttempt :: Action.recvWait ::
          Action.print "Connection closed." :: Action.close :: (listen rest).trace)
        (listen rest).status ∧
    Action.sleep 5 ∉
      [Action.connectAttempt, Action.recvWait,
        Action.print "Connection closed.", Action.close] := by
  constructor
  · simp [listen, runInner, innerStep, isConnectionClosed]
  · decide

/-- C8: in every reachable state the client never sends an outbound
message: every socket operation occurring in the trace of any run is a
connect attempt, a recv, or a close, so the send operation in
particular never occurs. -/
theorem c8_never_sends (script : List ConnectOutcome) (a : Action)
    (ha : a ∈ (listen script).trace) (hs : isSocketOp a = true) :
    a = Action.connectAttempt ∨ a = Action.recvWait ∨ a = Action.close := by
  induction script with
  | nil =>
    simp [listen] at ha
    subst ha
    left; rfl
  | cons c rest ih =>
    cases c with
    | fail e =>
      by_cases h : caughtByOuter e = true
      · rw [listen, if_pos h] at ha
        rcases List.mem_cons.mp ha with rfl | ha
        · left; rfl
        rcases List.mem_cons.mp ha with rfl | ha
        · simp [isSocketOp] at hs
        rcases List.mem_cons.mp ha with rfl | ha
        · simp [isSocketOp] at hs
        · exact ih ha
      · rw [listen, if_neg h] at ha
        simp at ha
        subst ha
        left; rfl
    | ok recvs =>
      by_cases h : (runInner recvs).2 = true
      · rw [listen, if_pos h] at ha
        rcases List.mem_cons.mp ha with rfl | ha
        · left; rfl
        rcases List.mem_append.mp ha with ha | ha
        · right; left; exact runInner_socket recvs a ha hs
        rcases List.mem_cons.mp ha with rfl | ha
        · right; right; rfl
        · exact ih ha
      · rw [listen, if_neg h] at ha
        rcases List.mem_cons.mp ha with rfl | ha
        · left; rfl
        · right; left; exact runInner_socket recvs a ha hs

/-- Witness for C8: the connect attempt of a run on one established
connection is a socket operation occurring in the trace, and it is one
of the three permitted operations. -/
theorem c8_witness :
    (Action.connectAttempt ∈ (listen [ConnectOutcome.ok []]).trace ∧
      isSocketOp Action.connectAttempt = true) ∧
    (Action.connectAttempt = Action.connectAttempt ∨
      Action.connectAttempt = Action.recvWait ∨
      Action.connectAttempt = Action.close) :=
  ⟨⟨by decide, rfl⟩,
    c8_never_sends [ConnectOutcome.ok []] Action.connectAttempt (by decide) rfl⟩

/-- C9: after a per message decode error, or any receive exception
other than a connection close, the inner loop breaks and the next
connect attempt follows the socket close immediately, with no 5 second
sleep on that path; a delay can only come from the subsequent connect
attempt itself failing inside the rest of the script. -/
theorem c9_decode_error_breaks_without_delay (f : FrameContent) (e : Exc)
    (rest : List ConnectOutcome) (h : decodeFrame f = Except.error e) :
    listen (ConnectOutcome.ok [RecvOutcome.frame f] :: rest) =
      RunResult.mk
        (Action.connectAttempt :: Action.recvWait ::
          Action.print ("An error occurred: " ++ excMsg e) ::
          Action.close :: (listen rest).trace)
        (listen rest).status ∧
    ∀ e2 : Exc, isConnectionClosed e2 = false →
      listen (ConnectOutcome.ok [RecvOutcome.raise e2] :: rest) =
        RunResult.mk
          (Action.connectAttempt :: Action.recvWait ::
            Action.print ("An error occurred: " ++ excMsg e2) ::
            Action.close :: (listen rest).trace)
          (listen rest).status := by
  constructor
  · simp [listen, runInner, innerStep, h]
  · intro e2 h2
    simp [listen, runInner, innerStep, h2]

/-- Witness for C9: an invalid JSON frame breaks the connection and the
next connect attempt follows with no sleep in between; likewise for a
receive exception that is not a connection close. -/
theorem c9_witness :
    (decodeFrame (FrameContent.invalid "oops") =
        Except.error (Exc.jsonDecodeError "oops") ∧
      isConnectionClosed (Exc.otherError "boom") = false) ∧
    listen [ConnectOutcome.ok [RecvOutcome.frame (FrameContent.invalid "oops")]] =
      RunResult.mk
        [Action.connectAttempt, Action.recvWait,
          Action.print "An error occurred: oops", Action.close, Action.connectAttempt]
        Status.running ∧
    listen [ConnectOutcome.ok [RecvOutcome.raise (Exc.otherError "boom")]] =
      RunResult.mk
        [Action.connectAttempt, Action.recvWait,
          Action.print "An error occurred: boom", Action.close, Action.connectAttempt]
        Status.running :=
  ⟨⟨rfl, rfl⟩,
    (c9_decode_error_breaks_without_delay (FrameContent.invalid "oops")
      (Exc.jsonDecodeError "oops") [] rfl).1,
    (c9_decode_error_breaks_without_delay (FrameContent.invalid "oops")
      (Exc.jsonDecodeError "oops") [] rfl).2 (Exc.otherError "boom") rfl⟩

end ReadSocket
